import Mathlib

/-!
# phpdesktop-chrome: `cef/browser_window.cpp`

A shallow embedding of the window registry (`g_browserWindows` with
`GetBrowserWindow`, `StoreBrowserWindow`, `RemoveBrowserWindow`) and of the
`BrowserWindow` methods that talk to the operating system, followed by the
properties checked against the specification.

Conventions of the embedding
* A window handle (`HWND`) and an OS object handle (`HANDLE`) are natural
  numbers; `0` is the null handle.
* The registry stores pointers that come from `new BrowserWindow(...)`; such a
  pointer is modelled by the identity of the object it points to
  (`BrowserWindowRef`).  The null result of `GetBrowserWindow` is `none`.
* `std::map` is an association list; `find`, `operator[]` and `erase(iterator)`
  are `Registry.find`, `Registry.assign` and `Registry.erase`.
* Everything the code does to the outside world (log lines, Win32 calls, engine
  calls, `delete`) is appended to a trace of `Event`s, in program order.
* Everything the code asks of the outside world (Win32 queries, settings, the
  engine) is a field of `Host`.
* `LONG`/`int` arithmetic is 32-bit two's complement (`wrapLong`).
-/

namespace PhpDesktop

/-! ## Basic types -/

/-- Native window handle; `0` is `NULL`. -/
abbrev HWND := Nat

/-- Generic OS object handle (icons); `0` is `NULL`. -/
abbrev HANDLE := Nat

/-- Identity of a heap allocated `BrowserWindow` object. -/
abbrev BrowserWindowRef := Nat

/-- Severity of a log line (`LOG_DEBUG`, `LOG_WARNING`, `LOG_ERROR`). -/
inductive Severity where
  | debug
  | warning
  | error
  deriving DecidableEq, Repr

/-- The `wParam` of `WM_SETICON`. -/
inductive IconKind where
  | ICON_BIG
  | ICON_SMALL
  deriving DecidableEq, Repr

/-- The system metrics the code queries. -/
inductive Metric where
  | SM_CXICON
  | SM_CYICON
  | SM_CXSMICON
  | SM_CYSMICON
  deriving DecidableEq, Repr

/-- Win32 `RECT`; every field is a `LONG`. -/
structure RECT where
  left : Int
  top : Int
  right : Int
  bottom : Int
  deriving DecidableEq, Repr

/-- Win32 `POINT`. -/
structure POINT where
  x : Int
  y : Int
  deriving DecidableEq, Repr

/-- Win32 `MINMAXINFO`. -/
structure MINMAXINFO where
  ptReserved : POINT
  ptMaxSize : POINT
  ptMaxPosition : POINT
  ptMinTrackSize : POINT
  ptMaxTrackSize : POINT
  deriving DecidableEq, Repr

/-- Reduce an integer to the 32-bit two's complement range of `LONG`/`int`. -/
def wrapLong (z : Int) : Int :=
  let m := z % 4294967296
  if m < 2147483648 then m else m - 4294967296

/-- The value is representable as a `LONG`. -/
def IsLong (z : Int) : Prop := -2147483648 ≤ z ∧ z < 2147483648

instance (z : Int) : Decidable (IsLong z) := by
  unfold IsLong; infer_instance

/-- Subtraction of two `LONG`s as the machine computes it. -/
def subLong (a b : Int) : Int := wrapLong (a - b)

/-- The cast `(int)hwnd` used when a handle is streamed to the log. -/
def intOfHwnd (hwnd : HWND) : Int := wrapLong (Int.ofNat hwnd)

/-- Everything the code does to the outside world. -/
inductive Event where
  | log (sev : Severity) (text : String)
  | deleteBrowserWindow (browser : BrowserWindowRef)
  | setWindowText (hwnd : HWND) (title : String)
  | sendMessageSetIcon (hwnd : HWND) (kind : IconKind) (icon : HANDLE)
  | beginDeferWindowPos (numWindows : Nat)
  | deferWindowPos (hwnd : HWND) (x y cx cy : Int)
  | endDeferWindowPos
  | createBrowser (parent : HWND) (rect : RECT) (url : String)
  | fatalError (hwnd : HWND) (text : String)
  deriving DecidableEq, Repr

/-- The event is a log line of warning severity. -/
def Event.isWarning : Event → Bool
  | .log .warning _ => true
  | _ => false

/-- The event is a `WM_SETICON` message. -/
def Event.isSetIcon : Event → Bool
  | .sendMessageSetIcon _ _ _ => true
  | _ => false

/-- The event is a `DeferWindowPos` request. -/
def Event.isDeferWindowPos : Event → Bool
  | .deferWindowPos _ _ _ _ _ => true
  | _ => false

/-- The event is a call of `FatalError`. -/
def Event.isFatalError : Event → Bool
  | .fatalError _ _ => true
  | _ => false

/-! ## Settings and the host environment -/

/-- Modelled from the spec: the configuration tree returned by
`GetApplicationSettings()` (`settings.h` and the JSON value type are not part of
the sources).  The fields are the ones the spec lists; `none` is an absent
entry. -/
structure Settings where
  main_window_title : Option String
  main_window_icon : Option String
  main_window_minimum_size_0 : Option Int
  main_window_minimum_size_1 : Option Int
  main_window_maximum_size_0 : Option Int
  main_window_maximum_size_1 : Option Int
  popup_window_fixed_title : Option String
  popup_window_icon : Option String

/-- Modelled from the spec: conversion of a settings entry to `long`; an absent
entry reads as zero ("zero/absent means no constraint"). -/
def jsonLong (v : Option Int) : Int := v.getD 0

/-- Modelled from the spec: conversion of a settings entry to a string; an
absent entry reads as the empty string. -/
def jsonString (v : Option String) : String := v.getD ""

/-- The embedded engine's browser instance, as far as this file uses it:
`GetHost()->GetWindowHandle()`. -/
structure CefBrowser where
  hostWindowHandle : HWND
  deriving DecidableEq, Repr

/-- What the code asks of the outside world. -/
structure Host where
  /-- The value of `GetApplicationSettings()`. -/
  settings : Settings
  /-- The global `g_webServerUrl`. -/
  g_webServerUrl : String
  /-- The value of `GetExecutableName()`. -/
  executableName : String
  /-- The one-argument `Utf8ToWide`. -/
  Utf8ToWide : String → String
  /-- The buffer form `Utf8ToWide(src, dst, count)`. -/
  Utf8ToWideBuf : String → Nat → String
  /-- The value of `GetWindow(hwnd, GW_OWNER)`. -/
  GetWindowOwner : HWND → HWND
  /-- The value of `GetParent(hwnd)`. -/
  GetParent : HWND → HWND
  /-- The result of `GetWindowRect(hwnd, &rect)`: the `BOOL` and the contents
  of `rect` afterwards. -/
  GetWindowRect : HWND → Bool × RECT
  /-- The contents of `rect` after `GetClientRect(hwnd, &rect)`. -/
  GetClientRect : HWND → RECT
  /-- The value of `GetSystemMetrics`. -/
  GetSystemMetrics : Metric → Int
  /-- The value of `LoadImage(0, path, IMAGE_ICON, cx, cy, LR_LOADFROMFILE)`;
  `0` when the load fails. -/
  LoadImage : String → Int → Int → HANDLE
  /-- The value of `CefBrowserHost::CreateBrowser(...)`: whether the
  engine accepted the creation request. -/
  CreateBrowser : HWND → RECT → String → Bool

/-- The constant `MAX_PATH`. -/
def MAX_PATH : Nat := 260

/-! ## The registry `g_browserWindows` -/

/-- The type `std::map<HWND, BrowserWindow*>`. -/
abbrev Registry := List (HWND × BrowserWindowRef)

/-- The call `g_browserWindows.find(hwnd)`; `none` is `end()`. -/
def Registry.find : Registry → HWND → Option BrowserWindowRef
  | [], _ => none
  | (k, v) :: rest, hwnd => if k = hwnd then some v else Registry.find rest hwnd

/-- The handle is a key of the map. -/
def Registry.isKey (reg : Registry) (hwnd : HWND) : Bool :=
  (reg.find hwnd).isSome

/-- The statement `g_browserWindows[hwnd] = browser`: overwrite the entry of
`hwnd` when there is one, add an entry otherwise. -/
def Registry.assign : Registry → HWND → BrowserWindowRef → Registry
  | [], hwnd, browser => [(hwnd, browser)]
  | (k, v) :: rest, hwnd, browser =>
    if k = hwnd then (k, browser) :: rest
    else (k, v) :: Registry.assign rest hwnd browser

/-- The call `g_browserWindows.erase(it)` for the iterator `find(hwnd)`
returned. -/
def Registry.erase : Registry → HWND → Registry
  | [], _ => []
  | (k, v) :: rest, hwnd =>
    if k = hwnd then rest else (k, v) :: Registry.erase rest hwnd

/-- The objects the map points to, in map order. -/
def Registry.values (reg : Registry) : List BrowserWindowRef :=
  reg.map Prod.snd

/-- The process state the registry functions act on. -/
structure State where
  /-- The global `g_browserWindows`. -/
  g_browserWindows : Registry
  /-- The objects `delete` has been called on. -/
  deleted : List BrowserWindowRef
  /-- Everything done so far, oldest first. -/
  trace : List Event
  deriving DecidableEq, Repr

/-- Process start: empty map, nothing deleted, nothing done. -/
def State.init : State :=
  ⟨[], [], []⟩

/-- Append events to the trace. -/
def State.emit (s : State) (evs : List Event) : State :=
  ⟨s.g_browserWindows, s.deleted, s.trace ++ evs⟩

/-- The function `GetBrowserWindow(HWND hwnd)`. -/
def GetBrowserWindow (host : Host) (s : State) (hwnd : HWND) :
    Option BrowserWindowRef × State :=
  match s.g_browserWindows.find hwnd with
  | some browser => (some browser, s)
  | none =>
    let owner := host.GetWindowOwner hwnd
    match (if owner ≠ 0 then s.g_browserWindows.find owner else none) with
    | some browser => (some browser, s)
    | none =>
      let parent := host.GetParent hwnd
      match (if parent ≠ 0 then s.g_browserWindows.find parent else none) with
      | some browser => (some browser, s)
      | none =>
        (none, s.emit [.log .debug
          ("GetBrowserWindow(): not found, hwnd = " ++ toString (intOfHwnd hwnd))])

/-- The function `StoreBrowserWindow(HWND hwnd, BrowserWindow* browser)`. -/
def StoreBrowserWindow (s : State) (hwnd : HWND) (browser : BrowserWindowRef) :
    State :=
  let s1 := s.emit [.log .debug
    ("StoreBrowserWindow(): hwnd = " ++ toString (intOfHwnd hwnd))]
  match s1.g_browserWindows.find hwnd with
  | none =>
    ⟨s1.g_browserWindows.assign hwnd browser, s1.deleted, s1.trace⟩
  | some _ =>
    s1.emit [.log .warning "StoreBrowserWindow() failed: already stored"]

/-- The statement `delete browser`: the destructor `~BrowserWindow()` logs,
then the object is gone. -/
def deleteBrowserWindow (s : State) (browser : BrowserWindowRef) : State :=
  ⟨s.g_browserWindows, browser :: s.deleted,
    s.trace ++ [.log .debug "BrowserWindow::~BrowserWindow() destroyed",
                .deleteBrowserWindow browser]⟩

/-- The function `RemoveBrowserWindow(HWND hwnd)`. -/
def RemoveBrowserWindow (s : State) (hwnd : HWND) : State :=
  let s1 := s.emit [.log .debug
    ("RemoveBrowserWindow(): hwnd = " ++ toString (intOfHwnd hwnd))]
  match s1.g_browserWindows.find hwnd with
  | some browser =>
    deleteBrowserWindow
      ⟨s1.g_browserWindows.erase hwnd, s1.deleted, s1.trace⟩ browser
  | none =>
    s1.emit [.log .warning "RemoveBrowserWindow() failed: not found"]

/-! ## The class `BrowserWindow` -/

/-- The data members of a `BrowserWindow`. -/
structure BrowserWindow where
  windowHandle_ : HWND
  isPopup_ : Bool
  /-- The `CefRefPtr<CefBrowser>`; `none` is the null reference. -/
  cefBrowser_ : Option CefBrowser
  deriving DecidableEq, Repr

/-- The method `BrowserWindow::IsPopup()`. -/
def BrowserWindow.IsPopup (w : BrowserWindow) : Bool := w.isPopup_

/-- The method `BrowserWindow::SetTitle(title)`: one `SetWindowText` call.  The
`_ASSERT` on its result exists in debug builds only and is not modelled. -/
def BrowserWindow.SetTitle (w : BrowserWindow) (title : String) : List Event :=
  [.setWindowText w.windowHandle_ title]

/-- The method `BrowserWindow::SetTitleFromSettings()`. -/
def BrowserWindow.SetTitleFromSettings (host : Host) (w : BrowserWindow) :
    List Event :=
  if w.IsPopup then
    let popup_title := jsonString host.settings.popup_window_fixed_title
    let popup_title :=
      if popup_title.isEmpty then jsonString host.settings.main_window_title
      else popup_title
    let popup_title :=
      if popup_title.isEmpty then host.Utf8ToWide host.executableName
      else popup_title
    w.SetTitle popup_title
  else []

/-- The method `BrowserWindow::SetIconFromSettings()`. -/
def BrowserWindow.SetIconFromSettings (host : Host) (w : BrowserWindow) :
    List Event :=
  let iconPath :=
    if w.IsPopup then host.settings.popup_window_icon
    else host.settings.main_window_icon
  match iconPath with
  | none => []
  | some path =>
    if path.isEmpty then []
    else
      let iconPathW := host.Utf8ToWideBuf path MAX_PATH
      let bigX := host.GetSystemMetrics .SM_CXICON
      let bigY := host.GetSystemMetrics .SM_CYICON
      let bigIcon := host.LoadImage iconPathW bigX bigY
      let evBig :=
        if bigIcon ≠ 0 then
          [Event.sendMessageSetIcon w.windowHandle_ .ICON_BIG bigIcon]
        else
          [Event.log .warning "Setting icon from settings file failed (ICON_BIG)"]
      let smallX := host.GetSystemMetrics .SM_CXSMICON
      let smallY := host.GetSystemMetrics .SM_CYSMICON
      let smallIcon := host.LoadImage iconPathW smallX smallY
      let evSmall :=
        if smallIcon ≠ 0 then
          [Event.sendMessageSetIcon w.windowHandle_ .ICON_SMALL smallIcon]
        else
          [Event.log .warning "Setting icon from settings file failed (ICON_SMALL)"]
      evBig ++ evSmall

/-- The method `BrowserWindow::CreateBrowserControl(navigateUrl)`: the value
it returns and what it does.  The value of `CefBrowserHost::CreateBrowser` is
not used by the code. -/
def BrowserWindow.CreateBrowserControl (host : Host) (w : BrowserWindow) :
    Bool × List Event :=
  let (b, rect) := host.GetWindowRect w.windowHandle_
  let evRect :=
    if b then []
    else [Event.log .error
      "GetWindowRect() failed in BrowserWindow::CreateBrowserControl()"]
  let _created := host.CreateBrowser w.windowHandle_ rect host.g_webServerUrl
  (true,
    [Event.log .debug "BrowserWindow::CreateBrowserControl()"] ++ evRect ++
      [Event.createBrowser w.windowHandle_ rect host.g_webServerUrl])

/-- The constructor `BrowserWindow::BrowserWindow(inWindowHandle, isPopup)`:
the constructed object and what the constructor does.  `FatalError` ends the
process, so it is the last event when it occurs.  The `_ASSERT` on the handle
exists in debug builds only and is not modelled. -/
def BrowserWindow.construct (host : Host) (inWindowHandle : HWND)
    (isPopup : Bool) : BrowserWindow × List Event :=
  let w : BrowserWindow := ⟨inWindowHandle, isPopup, none⟩
  let evTitle := w.SetTitleFromSettings host
  let evIcon := w.SetIconFromSettings host
  let evBody :=
    if w.IsPopup then
      [Event.log .debug "BrowserWindow::BrowserWindow() created for Popup"]
    else
      let (ok, evCreate) := w.CreateBrowserControl host
      if !ok then
        evCreate ++ [Event.fatalError w.windowHandle_
          "Could not create Browser control.\nExiting application."]
      else evCreate
  (w, evTitle ++ evIcon ++ evBody)

/-- The method `BrowserWindow::OnSize()`. -/
def BrowserWindow.OnSize (host : Host) (w : BrowserWindow) : List Event :=
  match w.cefBrowser_ with
  | some cefBrowser =>
    let rect := host.GetClientRect w.windowHandle_
    let cefHwnd := cefBrowser.hostWindowHandle
    [.beginDeferWindowPos 1,
     .deferWindowPos cefHwnd rect.left rect.top
        (subLong rect.right rect.left) (subLong rect.bottom rect.top),
     .endDeferWindowPos]
  | none =>
    [.log .warning
      "BrowserWindow::OnSize() failed: CefBrowser object not created yet"]

/-- The method `BrowserWindow::SetCefBrowser(cefBrowser)`. -/
def BrowserWindow.SetCefBrowser (host : Host) (w : BrowserWindow)
    (cefBrowser : Option CefBrowser) : BrowserWindow × List Event :=
  let w1 : BrowserWindow := ⟨w.windowHandle_, w.isPopup_, cefBrowser⟩
  (w1, w1.OnSize host)

/-- The four function-level `static long` variables of `OnGetMinMaxInfo`. -/
structure MinMaxStatics where
  minimum_width : Int
  minimum_height : Int
  maximum_width : Int
  maximum_height : Int
  deriving DecidableEq, Repr

/-- Initialisation of the statics the first time control passes over them; later
passes keep the stored values. -/
def MinMaxStatics.initOnce (host : Host) : Option MinMaxStatics → MinMaxStatics
  | some st => st
  | none =>
    ⟨jsonLong host.settings.main_window_minimum_size_0,
     jsonLong host.settings.main_window_minimum_size_1,
     jsonLong host.settings.main_window_maximum_size_0,
     jsonLong host.settings.main_window_maximum_size_1⟩

/-- The method `BrowserWindow::OnGetMinMaxInfo(uMsg, wParam, lParam)`.  The
first argument is the state of the statics (`none` before their initialisation),
`mmi` is the structure `lParam` points to; the result is the statics and that
`MINMAXINFO` afterwards. -/
def BrowserWindow.OnGetMinMaxInfo (host : Host) (w : BrowserWindow)
    (statics : Option MinMaxStatics) (mmi : MINMAXINFO) :
    Option MinMaxStatics × MINMAXINFO :=
  if !w.IsPopup then
    let st := MinMaxStatics.initOnce host statics
    let minX := if st.minimum_width ≠ 0 then st.minimum_width else mmi.ptMinTrackSize.x
    let minY := if st.minimum_height ≠ 0 then st.minimum_height else mmi.ptMinTrackSize.y
    let maxX := if st.maximum_width ≠ 0 then st.maximum_width else mmi.ptMaxTrackSize.x
    let maxY := if st.maximum_height ≠ 0 then st.maximum_height else mmi.ptMaxTrackSize.y
    (some st,
      ⟨mmi.ptReserved, mmi.ptMaxSize, mmi.ptMaxPosition, ⟨minX, minY⟩, ⟨maxX, maxY⟩⟩)
  else (statics, mmi)

/-! ## What the specification says, in its own words -/

/-- The resolution order of `find(handle)` as the specification words it: the
entry of the handle itself, else the entry of its owner when it has one that is
a key, else the entry of its parent when it has one that is a key, else
nothing. -/
def findSpec (host : Host) (reg : Registry) (hwnd : HWND) :
    Option BrowserWindowRef :=
  if reg.isKey hwnd then reg.find hwnd
  else if host.GetWindowOwner hwnd ≠ 0 ∧ reg.isKey (host.GetWindowOwner hwnd) then
    reg.find (host.GetWindowOwner hwnd)
  else if host.GetParent hwnd ≠ 0 ∧ reg.isKey (host.GetParent hwnd) then
    reg.find (host.GetParent hwnd)
  else none

/-- The handle has an owner window and that owner is a key of the map. -/
def ownerIsKey (host : Host) (reg : Registry) (hwnd : HWND) : Prop :=
  host.GetWindowOwner hwnd ≠ 0 ∧ reg.isKey (host.GetWindowOwner hwnd) = true

/-- The handle has a parent window and that parent is a key of the map. -/
def parentIsKey (host : Host) (reg : Registry) (hwnd : HWND) : Prop :=
  host.GetParent hwnd ≠ 0 ∧ reg.isKey (host.GetParent hwnd) = true

instance (host : Host) (reg : Registry) (hwnd : HWND) :
    Decidable (ownerIsKey host reg hwnd) := by
  unfold ownerIsKey; infer_instance

instance (host : Host) (reg : Registry) (hwnd : HWND) :
    Decidable (parentIsKey host reg hwnd) := by
  unfold parentIsKey; infer_instance

/-- A host used to evaluate the definitions on concrete inputs: window 20 is
owned by window 10, window 30 is a child of window 10, the main window has
minimum size 200 x 150 and maximum size (0, 0), no icon file can be loaded, and
the engine rejects the request to create a browser. -/
def sampleHost : Host where
  settings :=
    ⟨some "My App", some "icon.ico", some 200, some 150, some 0, some 0,
     none, some "popup.ico"⟩
  g_webServerUrl := "http://127.0.0.1:54007/"
  executableName := "phpdesktop-chrome"
  Utf8ToWide := fun t => t
  Utf8ToWideBuf := fun t _ => t
  GetWindowOwner := fun hwnd => if hwnd = 20 then 10 else 0
  GetParent := fun hwnd => if hwnd = 30 then 10 else 0
  GetWindowRect := fun _ => (true, ⟨0, 0, 800, 600⟩)
  GetClientRect := fun _ => ⟨0, 0, 784, 561⟩
  GetSystemMetrics := fun m =>
    match m with
    | .SM_CXICON => 32
    | .SM_CYICON => 32
    | .SM_CXSMICON => 16
    | .SM_CYSMICON => 16
  LoadImage := fun _ _ _ => 0
  CreateBrowser := fun _ _ _ => false

/-- The icon path `SetIconFromSettings` reads: `popup_window.icon` for a popup,
`main_window.icon` otherwise. -/
def configuredIconPath (host : Host) (w : BrowserWindow) : Option String :=
  if w.IsPopup then host.settings.popup_window_icon
  else host.settings.main_window_icon

/-- The large and the small icon a window currently shows. -/
structure WindowIcons where
  big : HANDLE
  small : HANDLE
  deriving DecidableEq, Repr

/-- Effect of one event on the icons of window `hwnd`: a `WM_SETICON` message
sent to that window replaces the icon of the given kind. -/
def WindowIcons.step (hwnd : HWND) (icons : WindowIcons) : Event → WindowIcons
  | .sendMessageSetIcon target .ICON_BIG icon =>
    if target = hwnd then ⟨icon, icons.small⟩ else icons
  | .sendMessageSetIcon target .ICON_SMALL icon =>
    if target = hwnd then ⟨icons.big, icon⟩ else icons
  | _ => icons

/-- Effect of a trace on the icons of window `hwnd`. -/
def WindowIcons.after (hwnd : HWND) (icons : WindowIcons) (trace : List Event) :
    WindowIcons :=
  trace.foldl (WindowIcons.step hwnd) icons

/-- The tracking-size rule as the specification words it: a configured value
that is absent or zero is no constraint, any other configured value replaces
what the OS provided. -/
def trackSizeSpec (configured : Option Int) (provided : Int) : Int :=
  match configured with
  | none => provided
  | some v => if v = 0 then provided else v

/-- The differences `right - left` and `bottom - top` are representable, so
the subtractions in `OnSize` do not overflow. -/
def RECT.NoOverflow (r : RECT) : Prop :=
  IsLong (r.right - r.left) ∧ IsLong (r.bottom - r.top)

instance (r : RECT) : Decidable r.NoOverflow := by
  unfold RECT.NoOverflow; infer_instance

/-- A host that differs from `sampleHost` only in the two configured titles. -/
def hostWithTitles (fixed_title title : Option String) : Host where
  settings :=
    ⟨title, some "icon.ico", some 200, some 150, some 0, some 0,
     fixed_title, some "popup.ico"⟩
  g_webServerUrl := sampleHost.g_webServerUrl
  executableName := sampleHost.executableName
  Utf8ToWide := sampleHost.Utf8ToWide
  Utf8ToWideBuf := sampleHost.Utf8ToWideBuf
  GetWindowOwner := sampleHost.GetWindowOwner
  GetParent := sampleHost.GetParent
  GetWindowRect := sampleHost.GetWindowRect
  GetClientRect := sampleHost.GetClientRect
  GetSystemMetrics := sampleHost.GetSystemMetrics
  LoadImage := sampleHost.LoadImage
  CreateBrowser := sampleHost.CreateBrowser

/-- One call on the registry. -/
inductive Op where
  | store (hwnd : HWND) (browser : BrowserWindowRef)
  | remove (hwnd : HWND)
  deriving DecidableEq, Repr

/-- Perform one call. -/
def Op.apply (s : State) : Op → State
  | .store hwnd browser => StoreBrowserWindow s hwnd browser
  | .remove hwnd => RemoveBrowserWindow s hwnd

/-- Perform a sequence of calls, first to last. -/
def run (s : State) (ops : List Op) : State :=
  ops.foldl Op.apply s

/-- Every `StoreBrowserWindow` of the sequence is handed an object that, at the
time of the call, is neither held by the registry nor deleted. -/
def freshStores : State → List Op → Bool
  | _, [] => true
  | s, .store hwnd browser :: ops =>
    (!s.g_browserWindows.values.contains browser) && (!s.deleted.contains browser) &&
      freshStores (StoreBrowserWindow s hwnd browser) ops
  | s, .remove hwnd :: ops => freshStores (RemoveBrowserWindow s hwnd) ops

/-- The registry points to pairwise different objects, none of them deleted. -/
def State.OwnsLive (s : State) : Prop :=
  s.g_browserWindows.values.Nodup ∧
    ∀ browser ∈ s.g_browserWindows.values, browser ∉ s.deleted

/-! ## Lemmas on the association list -/

theorem Registry.find_assign_self (reg : Registry) (hwnd : HWND)
    (browser : BrowserWindowRef) :
    (reg.assign hwnd browser).find hwnd = some browser := by
  induction reg with
  | nil => simp [Registry.assign, Registry.find]
  | cons e rest ih =>
    obtain ⟨k, v⟩ := e
    by_cases hk : k = hwnd
    · simp [Registry.assign, Registry.find, hk]
    · simp [Registry.assign, Registry.find, hk, ih]

theorem Registry.erase_assign_of_find_none (reg : Registry) (hwnd : HWND)
    (browser : BrowserWindowRef) (hnew : reg.find hwnd = none) :
    (reg.assign hwnd browser).erase hwnd = reg := by
  induction reg with
  | nil => simp [Registry.assign, Registry.erase]
  | cons e rest ih =>
    obtain ⟨k, v⟩ := e
    by_cases hk : k = hwnd
    · simp [Registry.find, hk] at hnew
    · simp only [Registry.find, hk, if_false] at hnew
      simp [Registry.assign, Registry.erase, hk, ih hnew]

theorem StoreBrowserWindow_registry_of_find_none (s : State) (hwnd : HWND)
    (browser : BrowserWindowRef) (hnew : s.g_browserWindows.find hwnd = none) :
    (StoreBrowserWindow s hwnd browser).g_browserWindows =
      s.g_browserWindows.assign hwnd browser := by
  simp [StoreBrowserWindow, State.emit, hnew]

theorem StoreBrowserWindow_find_self_isSome (s : State) (hwnd : HWND)
    (browser : BrowserWindowRef) :
    ((StoreBrowserWindow s hwnd browser).g_browserWindows.find hwnd).isSome = true := by
  cases hf : s.g_browserWindows.find hwnd with
  | none =>
    rw [StoreBrowserWindow_registry_of_find_none s hwnd browser hf,
      Registry.find_assign_self]
    rfl
  | some b => simp [StoreBrowserWindow, State.emit, hf]

theorem GetBrowserWindow_of_find_some (host : Host) (s : State) (hwnd : HWND)
    (browser : BrowserWindowRef) (hf : s.g_browserWindows.find hwnd = some browser) :
    GetBrowserWindow host s hwnd = (some browser, s) := by
  simp [GetBrowserWindow, hf]

theorem GetBrowserWindow_eq_findSpec (host : Host) (s : State) (hwnd : HWND) :
    (GetBrowserWindow host s hwnd).1 = findSpec host s.g_browserWindows hwnd := by
  unfold GetBrowserWindow findSpec Registry.isKey
  cases h1 : s.g_browserWindows.find hwnd with
  | some b => simp
  | none =>
    by_cases ho : host.GetWindowOwner hwnd = 0
    · by_cases hp : host.GetParent hwnd = 0
      · simp [ho, hp]
      · cases h3 : s.g_browserWindows.find (host.GetParent hwnd) <;> simp [ho, hp, h3]
    · cases h2 : s.g_browserWindows.find (host.GetWindowOwner hwnd) with
      | some b => simp [ho, h2]
      | none =>
        by_cases hp : host.GetParent hwnd = 0
        · simp [ho, h2, hp]
        · cases h3 : s.g_browserWindows.find (host.GetParent hwnd) <;>
            simp [ho, h2, hp, h3]

theorem GetBrowserWindow_registry (host : Host) (s : State) (hwnd : HWND) :
    (GetBrowserWindow host s hwnd).2.g_browserWindows = s.g_browserWindows ∧
    (GetBrowserWindow host s hwnd).2.deleted = s.deleted := by
  unfold GetBrowserWindow
  cases s.g_browserWindows.find hwnd with
  | some b => exact ⟨rfl, rfl⟩
  | none =>
    dsimp only
    generalize (if host.GetWindowOwner hwnd ≠ 0 then
      s.g_browserWindows.find (host.GetWindowOwner hwnd) else none) = viaOwner
    cases viaOwner with
    | some b => exact ⟨rfl, rfl⟩
    | none =>
      dsimp only
      generalize (if host.GetParent hwnd ≠ 0 then
        s.g_browserWindows.find (host.GetParent hwnd) else none) = viaParent
      cases viaParent with
      | some b => exact ⟨rfl, rfl⟩
      | none => exact ⟨rfl, rfl⟩

theorem findSpec_eq_none_iff (host : Host) (reg : Registry) (hwnd : HWND) :
    findSpec host reg hwnd = none ↔
      reg.isKey hwnd = false ∧ ¬ ownerIsKey host reg hwnd ∧
        ¬ parentIsKey host reg hwnd := by
  unfold findSpec ownerIsKey parentIsKey Registry.isKey
  cases h1 : reg.find hwnd with
  | some b => simp
  | none =>
    by_cases ho : host.GetWindowOwner hwnd ≠ 0 ∧
        (reg.find (host.GetWindowOwner hwnd)).isSome = true
    · obtain ⟨b, hb⟩ := Option.isSome_iff_exists.mp ho.2
      simp [ho.1, hb]
    · by_cases hp : host.GetParent hwnd ≠ 0 ∧
          (reg.find (host.GetParent hwnd)).isSome = true
      · obtain ⟨b, hb⟩ := Option.isSome_iff_exists.mp hp.2
        simp [ho, hp.1, hb]
      · simp [ho, hp]

theorem RemoveBrowserWindow_registry_of_find_some (s : State) (hwnd : HWND)
    (browser : BrowserWindowRef) (hf : s.g_browserWindows.find hwnd = some browser) :
    (RemoveBrowserWindow s hwnd).g_browserWindows = s.g_browserWindows.erase hwnd ∧
    (RemoveBrowserWindow s hwnd).deleted = browser :: s.deleted := by
  simp [RemoveBrowserWindow, State.emit, deleteBrowserWindow, hf]

theorem RemoveBrowserWindow_of_find_none (s : State) (hwnd : HWND)
    (hf : s.g_browserWindows.find hwnd = none) :
    RemoveBrowserWindow s hwnd =
      ⟨s.g_browserWindows, s.deleted,
        s.trace ++
          [.log .debug ("RemoveBrowserWindow(): hwnd = " ++ toString (intOfHwnd hwnd)),
           .log .warning "RemoveBrowserWindow() failed: not found"]⟩ := by
  simp [RemoveBrowserWindow, State.emit, hf]

theorem Registry.isKey_eq_false_iff (reg : Registry) (hwnd : HWND) :
    reg.isKey hwnd = false ↔ reg.find hwnd = none := by
  unfold Registry.isKey
  cases reg.find hwnd <;> simp

/-! ## The registry: store, find, remove -/

/-- C1: for every registry state, every handle `h` that is not yet a key and
every window object `w`: after `StoreBrowserWindow(h, w)` the lookup
`GetBrowserWindow(h)` returns exactly `w`, whatever the owner and the parent of
`h` are; after a following `RemoveBrowserWindow(h)` the handle is no longer a
key, and `GetBrowserWindow(h)` returns nothing whenever neither the owner nor
the parent of `h` is a key. -/
theorem store_get_remove (host : Host) (s : State) (h : HWND)
    (w : BrowserWindowRef) (hnew : s.g_browserWindows.isKey h = false) :
    (GetBrowserWindow host (StoreBrowserWindow s h w) h).1 = some w ∧
    (RemoveBrowserWindow (StoreBrowserWindow s h w) h).g_browserWindows.isKey h
        = false ∧
    (¬ ownerIsKey host
          (RemoveBrowserWindow (StoreBrowserWindow s h w) h).g_browserWindows h →
      ¬ parentIsKey host
          (RemoveBrowserWindow (StoreBrowserWindow s h w) h).g_browserWindows h →
      (GetBrowserWindow host (RemoveBrowserWindow (StoreBrowserWindow s h w) h) h).1
        = none) := by
  have hnone : s.g_browserWindows.find h = none :=
    (Registry.isKey_eq_false_iff _ _).mp hnew
  have hstore : (StoreBrowserWindow s h w).g_browserWindows.find h = some w := by
    rw [StoreBrowserWindow_registry_of_find_none s h w hnone]
    exact Registry.find_assign_self _ _ _
  have hreg : (RemoveBrowserWindow (StoreBrowserWindow s h w) h).g_browserWindows
      = s.g_browserWindows := by
    rw [(RemoveBrowserWindow_registry_of_find_some _ h w hstore).1,
      StoreBrowserWindow_registry_of_find_none s h w hnone]
    exact Registry.erase_assign_of_find_none _ _ _ hnone
  refine ⟨?_, ?_, ?_⟩
  · rw [GetBrowserWindow_of_find_some host _ h w hstore]
  · rw [hreg]; exact hnew
  · intro hown hpar
    rw [GetBrowserWindow_eq_findSpec, findSpec_eq_none_iff]
    refine ⟨?_, hown, hpar⟩
    rw [hreg]; exact hnew

/-- C1 evaluated: window 20 (owned by window 10, which is not a key) is stored
in the empty registry with object 7, found, removed, and not found any more. -/
theorem store_get_remove_witness :
    State.init.g_browserWindows.isKey 20 = false ∧
    (GetBrowserWindow sampleHost (StoreBrowserWindow State.init 20 7) 20).1
      = some 7 ∧
    (RemoveBrowserWindow (StoreBrowserWindow State.init 20 7) 20).g_browserWindows.isKey 20
      = false ∧
    (GetBrowserWindow sampleHost
        (RemoveBrowserWindow (StoreBrowserWindow State.init 20 7) 20) 20).1 = none :=
  ⟨rfl, (store_get_remove sampleHost State.init 20 7 rfl).1,
    (store_get_remove sampleHost State.init 20 7 rfl).2.1,
    (store_get_remove sampleHost State.init 20 7 rfl).2.2 (by decide) (by decide)⟩

/-- C2: for every registry state, handle `h` and window objects `w`, `w2`:
`StoreBrowserWindow(h, w)` followed by `StoreBrowserWindow(h, w2)` leaves the
registry exactly as it was after the first store (so `h` keeps the object it
had and no other entry changes), deletes nothing, and adds to the trace only
its debug line and one warning. -/
theorem store_twice_keeps_first (s : State) (h : HWND) (w w2 : BrowserWindowRef) :
    (StoreBrowserWindow (StoreBrowserWindow s h w) h w2).g_browserWindows
      = (StoreBrowserWindow s h w).g_browserWindows ∧
    (StoreBrowserWindow (StoreBrowserWindow s h w) h w2).deleted
      = (StoreBrowserWindow s h w).deleted ∧
    (StoreBrowserWindow (StoreBrowserWindow s h w) h w2).trace
      = (StoreBrowserWindow s h w).trace ++
          [.log .debug ("StoreBrowserWindow(): hwnd = " ++ toString (intOfHwnd h)),
           .log .warning "StoreBrowserWindow() failed: already stored"] := by
  obtain ⟨b, hb⟩ := Option.isSome_iff_exists.mp
    (StoreBrowserWindow_find_self_isSome s h w)
  generalize StoreBrowserWindow s h w = s1 at hb ⊢
  simp [StoreBrowserWindow, State.emit, hb]

/-- C3: for every registry state and every handle `h` that is not a key,
`RemoveBrowserWindow(h)` leaves the registry unchanged and deletes no window
object; all it adds to the trace is its debug line and one warning.  It does
not fall back to the owner or the parent of `h`: whatever `GetBrowserWindow(h)`
resolved to before, it resolves to afterwards. -/
theorem remove_absent_is_noop (host : Host) (s : State) (h : HWND)
    (habsent : s.g_browserWindows.isKey h = false) :
    (RemoveBrowserWindow s h).g_browserWindows = s.g_browserWindows ∧
    (RemoveBrowserWindow s h).deleted = s.deleted ∧
    (RemoveBrowserWindow s h).trace = s.trace ++
      [.log .debug ("RemoveBrowserWindow(): hwnd = " ++ toString (intOfHwnd h)),
       .log .warning "RemoveBrowserWindow() failed: not found"] ∧
    (GetBrowserWindow host (RemoveBrowserWindow s h) h).1
      = (GetBrowserWindow host s h).1 := by
  have hnone : s.g_browserWindows.find h = none :=
    (Registry.isKey_eq_false_iff _ _).mp habsent
  rw [RemoveBrowserWindow_of_find_none s h hnone]
  refine ⟨rfl, rfl, rfl, ?_⟩
  rw [GetBrowserWindow_eq_findSpec, GetBrowserWindow_eq_findSpec]

/-- C3 evaluated: window 20 is not a key but its owner, window 10, is;
removing 20 leaves the entry of 10 in place, deletes nothing, and window 20
still resolves to the object of its owner. -/
theorem remove_absent_is_noop_witness :
    Registry.isKey [(10, 7)] 20 = false ∧
    (RemoveBrowserWindow ⟨[(10, 7)], [], []⟩ 20).g_browserWindows = [(10, 7)] ∧
    (RemoveBrowserWindow ⟨[(10, 7)], [], []⟩ 20).deleted = [] ∧
    (GetBrowserWindow sampleHost (RemoveBrowserWindow ⟨[(10, 7)], [], []⟩ 20) 20).1
      = some 7 :=
  ⟨by decide,
    (remove_absent_is_noop sampleHost ⟨[(10, 7)], [], []⟩ 20 (by decide)).1,
    (remove_absent_is_noop sampleHost ⟨[(10, 7)], [], []⟩ 20 (by decide)).2.1,
    ((remove_absent_is_noop sampleHost ⟨[(10, 7)], [], []⟩ 20 (by decide)).2.2.2).trans
      (by decide)⟩

/-- C8: for every registry state and handle `h`, `GetBrowserWindow(h)` returns
what the resolution order of the specification gives (the entry of `h`, else
the entry of its owner when that is a key, else the entry of its parent when
that is a key, else nothing); it changes neither the registry nor the set of
deleted objects; and it returns nothing exactly when none of `h`, its owner and
its parent is a key. -/
theorem get_resolution_order (host : Host) (s : State) (h : HWND) :
    (GetBrowserWindow host s h).1 = findSpec host s.g_browserWindows h ∧
    (GetBrowserWindow host s h).2.g_browserWindows = s.g_browserWindows ∧
    (GetBrowserWindow host s h).2.deleted = s.deleted ∧
    ((GetBrowserWindow host s h).1 = none ↔
      s.g_browserWindows.isKey h = false ∧
        ¬ ownerIsKey host s.g_browserWindows h ∧
        ¬ parentIsKey host s.g_browserWindows h) := by
  refine ⟨GetBrowserWindow_eq_findSpec host s h,
    (GetBrowserWindow_registry host s h).1, (GetBrowserWindow_registry host s h).2, ?_⟩
  rw [GetBrowserWindow_eq_findSpec]
  exact findSpec_eq_none_iff host s.g_browserWindows h

/-! ## The window methods -/

theorem wrapLong_of_isLong (z : Int) (hz : IsLong z) : wrapLong z = z := by
  unfold IsLong at hz
  unfold wrapLong
  simp only
  split <;> omega

/-- C5: for every window and every client rectangle whose width and height are
representable: `OnSize` called while no browser instance is attached issues no
window-position update and logs one warning; called while an instance is
attached it issues exactly one position update, for the window of the instance,
with `x = left`, `y = top`, `width = right - left`, `height = bottom - top`,
and no warning. -/
theorem OnSize_positions_instance (host : Host) (w : BrowserWindow) :
    (w.cefBrowser_ = none →
      (w.OnSize host).filter Event.isDeferWindowPos = [] ∧
      (w.OnSize host).filter Event.isWarning =
        [.log .warning
          "BrowserWindow::OnSize() failed: CefBrowser object not created yet"]) ∧
    (∀ cefBrowser, w.cefBrowser_ = some cefBrowser →
      (host.GetClientRect w.windowHandle_).NoOverflow →
      (w.OnSize host).filter Event.isDeferWindowPos =
        [.deferWindowPos cefBrowser.hostWindowHandle
          (host.GetClientRect w.windowHandle_).left
          (host.GetClientRect w.windowHandle_).top
          ((host.GetClientRect w.windowHandle_).right -
            (host.GetClientRect w.windowHandle_).left)
          ((host.GetClientRect w.windowHandle_).bottom -
            (host.GetClientRect w.windowHandle_).top)] ∧
      (w.OnSize host).filter Event.isWarning = []) := by
  constructor
  · intro hnone
    simp [BrowserWindow.OnSize, hnone, Event.isDeferWindowPos, Event.isWarning]
  · intro cefBrowser hsome hno
    obtain ⟨hw, hh⟩ := hno
    simp [BrowserWindow.OnSize, hsome, Event.isDeferWindowPos, Event.isWarning,
      subLong, wrapLong_of_isLong _ hw, wrapLong_of_isLong _ hh]

/-- C5 evaluated: with the client rectangle (0, 0, 784, 561) a window that has
no instance only warns, and a window whose instance lives in window 11 asks for
that window to be placed at (0, 0) with size 784 x 561. -/
theorem OnSize_positions_instance_witness :
    (BrowserWindow.OnSize sampleHost ⟨10, false, none⟩).filter Event.isDeferWindowPos
      = [] ∧
    (sampleHost.GetClientRect 10).NoOverflow ∧
    (BrowserWindow.OnSize sampleHost ⟨10, false, some ⟨11⟩⟩).filter
        Event.isDeferWindowPos
      = [.deferWindowPos 11 0 0 784 561] :=
  ⟨((OnSize_positions_instance sampleHost ⟨10, false, none⟩).1 rfl).1,
    by decide,
    ((OnSize_positions_instance sampleHost ⟨10, false, some ⟨11⟩⟩).2 ⟨11⟩ rfl
      (by decide)).1⟩

/-- C6: for a non-popup window and every `MINMAXINFO`, the first call of
`OnGetMinMaxInfo` in the process sets each of `ptMinTrackSize.x`,
`ptMinTrackSize.y`, `ptMaxTrackSize.x`, `ptMaxTrackSize.y` to the configured
value when that is non-zero and leaves it as provided when the value is zero or
absent, each of the four independently, and touches no other field; with
minimum (200, 150) and maximum (0, 0) the minimum tracking size becomes
200 x 150 and the maximum tracking size is unchanged.  For a popup window the
`MINMAXINFO` is left entirely unchanged. -/
theorem OnGetMinMaxInfo_tracking_size (host : Host) (w : BrowserWindow)
    (statics : Option MinMaxStatics) (mmi : MINMAXINFO) :
    (w.isPopup_ = false →
      (w.OnGetMinMaxInfo host none mmi).2 =
        ⟨mmi.ptReserved, mmi.ptMaxSize, mmi.ptMaxPosition,
          ⟨trackSizeSpec host.settings.main_window_minimum_size_0 mmi.ptMinTrackSize.x,
           trackSizeSpec host.settings.main_window_minimum_size_1 mmi.ptMinTrackSize.y⟩,
          ⟨trackSizeSpec host.settings.main_window_maximum_size_0 mmi.ptMaxTrackSize.x,
           trackSizeSpec host.settings.main_window_maximum_size_1 mmi.ptMaxTrackSize.y⟩⟩) ∧
    (w.isPopup_ = false →
      host.settings.main_window_minimum_size_0 = some 200 →
      host.settings.main_window_minimum_size_1 = some 150 →
      host.settings.main_window_maximum_size_0 = some 0 →
      host.settings.main_window_maximum_size_1 = some 0 →
      (w.OnGetMinMaxInfo host none mmi).2.ptMinTrackSize = ⟨200, 150⟩ ∧
      (w.OnGetMinMaxInfo host none mmi).2.ptMaxTrackSize = mmi.ptMaxTrackSize) ∧
    (w.isPopup_ = true → (w.OnGetMinMaxInfo host statics mmi).2 = mmi) := by
  have key : ∀ (c : Option Int) (p : Int),
      (if jsonLong c ≠ 0 then jsonLong c else p) = trackSizeSpec c p := by
    intro c p
    cases c with
    | none => simp [jsonLong, trackSizeSpec]
    | some v => by_cases hv : v = 0 <;> simp [jsonLong, trackSizeSpec, hv]
  refine ⟨?_, ?_, ?_⟩
  · intro hmain
    simp only [BrowserWindow.OnGetMinMaxInfo, BrowserWindow.IsPopup, hmain,
      MinMaxStatics.initOnce, Bool.not_false, if_true, key]
  · intro hmain h0 h1 h2 h3
    simp [BrowserWindow.OnGetMinMaxInfo, BrowserWindow.IsPopup, hmain,
      MinMaxStatics.initOnce, h0, h1, h2, h3, jsonLong]
  · intro hpopup
    simp [BrowserWindow.OnGetMinMaxInfo, BrowserWindow.IsPopup, hpopup]

/-- C6 evaluated: minimum (200, 150) and maximum (0, 0) are configured; the OS
provides minimum 136 x 39 and maximum 1936 x 1096.  The main window gets
minimum 200 x 150 and keeps the maximum; a popup keeps everything. -/
theorem OnGetMinMaxInfo_tracking_size_witness :
    (BrowserWindow.OnGetMinMaxInfo sampleHost ⟨10, false, none⟩ none
        ⟨⟨0, 0⟩, ⟨1936, 1096⟩, ⟨-8, -8⟩, ⟨136, 39⟩, ⟨1936, 1096⟩⟩).2
      = ⟨⟨0, 0⟩, ⟨1936, 1096⟩, ⟨-8, -8⟩, ⟨200, 150⟩, ⟨1936, 1096⟩⟩ ∧
    (BrowserWindow.OnGetMinMaxInfo sampleHost ⟨10, false, none⟩ none
        ⟨⟨0, 0⟩, ⟨1936, 1096⟩, ⟨-8, -8⟩, ⟨136, 39⟩, ⟨1936, 1096⟩⟩).2.ptMinTrackSize
      = ⟨200, 150⟩ ∧
    (BrowserWindow.OnGetMinMaxInfo sampleHost ⟨20, true, none⟩ none
        ⟨⟨0, 0⟩, ⟨1936, 1096⟩, ⟨-8, -8⟩, ⟨136, 39⟩, ⟨1936, 1096⟩⟩).2
      = ⟨⟨0, 0⟩, ⟨1936, 1096⟩, ⟨-8, -8⟩, ⟨136, 39⟩, ⟨1936, 1096⟩⟩ :=
  ⟨((OnGetMinMaxInfo_tracking_size sampleHost ⟨10, false, none⟩ none
      ⟨⟨0, 0⟩, ⟨1936, 1096⟩, ⟨-8, -8⟩, ⟨136, 39⟩, ⟨1936, 1096⟩⟩).1 rfl).trans
        (by decide),
    ((OnGetMinMaxInfo_tracking_size sampleHost ⟨10, false, none⟩ none
      ⟨⟨0, 0⟩, ⟨1936, 1096⟩, ⟨-8, -8⟩, ⟨136, 39⟩, ⟨1936, 1096⟩⟩).2.1
        rfl rfl rfl rfl rfl).1,
    (OnGetMinMaxInfo_tracking_size sampleHost ⟨20, true, none⟩ none
      ⟨⟨0, 0⟩, ⟨1936, 1096⟩, ⟨-8, -8⟩, ⟨136, 39⟩, ⟨1936, 1096⟩⟩).2.2 rfl⟩

/-- C7: for every window whose configured icon path is non-empty:
if the path cannot be loaded in either size, `SetIconFromSettings` does nothing
but log two warnings, one for the large and one for the small icon, so it sends
no `WM_SETICON` message and the icons the window had remain; in general the
large icon is replaced (by the loaded one) iff the large load succeeds and the
small icon is replaced iff the small load succeeds, each whatever the other
load does. -/
theorem SetIconFromSettings_load_failure (host : Host) (w : BrowserWindow)
    (path : String) (icons : WindowIcons)
    (hpath : configuredIconPath host w = some path) (hne : path ≠ "") :
    (host.LoadImage (host.Utf8ToWideBuf path MAX_PATH)
          (host.GetSystemMetrics .SM_CXICON) (host.GetSystemMetrics .SM_CYICON) = 0 →
      host.LoadImage (host.Utf8ToWideBuf path MAX_PATH)
          (host.GetSystemMetrics .SM_CXSMICON) (host.GetSystemMetrics .SM_CYSMICON) = 0 →
      w.SetIconFromSettings host =
        [.log .warning "Setting icon from settings file failed (ICON_BIG)",
         .log .warning "Setting icon from settings file failed (ICON_SMALL)"] ∧
      (w.SetIconFromSettings host).filter Event.isSetIcon = [] ∧
      WindowIcons.after w.windowHandle_ icons (w.SetIconFromSettings host) = icons) ∧
    ((∃ icon, Event.sendMessageSetIcon w.windowHandle_ .ICON_BIG icon
          ∈ w.SetIconFromSettings host) ↔
      host.LoadImage (host.Utf8ToWideBuf path MAX_PATH)
          (host.GetSystemMetrics .SM_CXICON) (host.GetSystemMetrics .SM_CYICON) ≠ 0) ∧
    ((∃ icon, Event.sendMessageSetIcon w.windowHandle_ .ICON_SMALL icon
          ∈ w.SetIconFromSettings host) ↔
      host.LoadImage (host.Utf8ToWideBuf path MAX_PATH)
          (host.GetSystemMetrics .SM_CXSMICON) (host.GetSystemMetrics .SM_CYSMICON) ≠ 0) ∧
    (WindowIcons.after w.windowHandle_ icons (w.SetIconFromSettings host)).big =
      (if host.LoadImage (host.Utf8ToWideBuf path MAX_PATH)
          (host.GetSystemMetrics .SM_CXICON) (host.GetSystemMetrics .SM_CYICON) ≠ 0
       then host.LoadImage (host.Utf8ToWideBuf path MAX_PATH)
          (host.GetSystemMetrics .SM_CXICON) (host.GetSystemMetrics .SM_CYICON)
       else icons.big) ∧
    (WindowIcons.after w.windowHandle_ icons (w.SetIconFromSettings host)).small =
      (if host.LoadImage (host.Utf8ToWideBuf path MAX_PATH)
          (host.GetSystemMetrics .SM_CXSMICON) (host.GetSystemMetrics .SM_CYSMICON) ≠ 0
       then host.LoadImage (host.Utf8ToWideBuf path MAX_PATH)
          (host.GetSystemMetrics .SM_CXSMICON) (host.GetSystemMetrics .SM_CYSMICON)
       else icons.small) := by
  have hempty : path.isEmpty = false := by
    cases hp : path.isEmpty with
    | false => rfl
    | true => exact absurd ((String.isEmpty_iff path).mp hp) hne
  have hcfg : (if w.IsPopup = true then host.settings.popup_window_icon
      else host.settings.main_window_icon) = some path := hpath
  unfold BrowserWindow.SetIconFromSettings
  simp only [hcfg, hempty]
  generalize host.LoadImage (host.Utf8ToWideBuf path MAX_PATH)
    (host.GetSystemMetrics .SM_CXICON) (host.GetSystemMetrics .SM_CYICON) = big
  generalize host.LoadImage (host.Utf8ToWideBuf path MAX_PATH)
    (host.GetSystemMetrics .SM_CXSMICON) (host.GetSystemMetrics .SM_CYSMICON) = small
  by_cases hb : big = 0 <;> by_cases hs : small = 0 <;>
    simp [hb, hs, Event.isSetIcon, WindowIcons.after, WindowIcons.step]

/-- C7 evaluated: the main window 10 has icon path "icon.ico", which the host
cannot load; the window showed icons 41 and 42 and still does, and the trace is
the two warnings. -/
theorem SetIconFromSettings_load_failure_witness :
    configuredIconPath sampleHost ⟨10, false, none⟩ = some "icon.ico" ∧
    BrowserWindow.SetIconFromSettings sampleHost ⟨10, false, none⟩ =
      [.log .warning "Setting icon from settings file failed (ICON_BIG)",
       .log .warning "Setting icon from settings file failed (ICON_SMALL)"] ∧
    WindowIcons.after 10 ⟨41, 42⟩
      (BrowserWindow.SetIconFromSettings sampleHost ⟨10, false, none⟩) = ⟨41, 42⟩ :=
  ⟨rfl,
    ((SetIconFromSettings_load_failure sampleHost ⟨10, false, none⟩ "icon.ico"
      ⟨41, 42⟩ rfl (by decide)).1 rfl rfl).1,
    ((SetIconFromSettings_load_failure sampleHost ⟨10, false, none⟩ "icon.ico"
      ⟨41, 42⟩ rfl (by decide)).1 rfl rfl).2.2⟩

/-- C9: for every configuration, `SetTitleFromSettings` on a popup window sets
the window title (one `SetWindowText` on its handle) to
`popup_window.fixed_title` if that is non-empty, else to `main_window.title` if
that is non-empty, else to the name of the host executable (converted by
`Utf8ToWide`); on a non-popup window it does nothing. -/
theorem SetTitleFromSettings_fallback (host : Host) (w : BrowserWindow) :
    (w.isPopup_ = true →
      jsonString host.settings.popup_window_fixed_title ≠ "" →
      w.SetTitleFromSettings host =
        [.setWindowText w.windowHandle_
          (jsonString host.settings.popup_window_fixed_title)]) ∧
    (w.isPopup_ = true →
      jsonString host.settings.popup_window_fixed_title = "" →
      jsonString host.settings.main_window_title ≠ "" →
      w.SetTitleFromSettings host =
        [.setWindowText w.windowHandle_
          (jsonString host.settings.main_window_title)]) ∧
    (w.isPopup_ = true →
      jsonString host.settings.popup_window_fixed_title = "" →
      jsonString host.settings.main_window_title = "" →
      w.SetTitleFromSettings host =
        [.setWindowText w.windowHandle_ (host.Utf8ToWide host.executableName)]) ∧
    (w.isPopup_ = false → w.SetTitleFromSettings host = []) := by
  have hE : ∀ t : String, t ≠ "" → t.isEmpty = false := by
    intro t ht
    cases hp : t.isEmpty with
    | false => rfl
    | true => exact absurd ((String.isEmpty_iff t).mp hp) ht
  have hE2 : ("" : String).isEmpty = true := by decide
  refine ⟨?_, ?_, ?_, ?_⟩
  · intro hp h1
    simp [BrowserWindow.SetTitleFromSettings, BrowserWindow.IsPopup, hp, hE _ h1,
      BrowserWindow.SetTitle]
  · intro hp h1 h2
    simp [BrowserWindow.SetTitleFromSettings, BrowserWindow.IsPopup, hp, h1, hE2,
      hE _ h2, BrowserWindow.SetTitle]
  · intro hp h1 h2
    simp [BrowserWindow.SetTitleFromSettings, BrowserWindow.IsPopup, hp, h1, h2, hE2,
      BrowserWindow.SetTitle]
  · intro hp
    simp [BrowserWindow.SetTitleFromSettings, BrowserWindow.IsPopup, hp]

/-- C9 evaluated: with a fixed title the popup 20 gets it; without one it gets
the title of the main window; with neither it gets the executable name; the
main window 10 gets no title from this method. -/
theorem SetTitleFromSettings_fallback_witness :
    BrowserWindow.SetTitleFromSettings (hostWithTitles (some "Popup") (some "My App"))
        ⟨20, true, none⟩ = [.setWindowText 20 "Popup"] ∧
    BrowserWindow.SetTitleFromSettings (hostWithTitles none (some "My App"))
        ⟨20, true, none⟩ = [.setWindowText 20 "My App"] ∧
    BrowserWindow.SetTitleFromSettings (hostWithTitles (some "") none)
        ⟨20, true, none⟩ = [.setWindowText 20 "phpdesktop-chrome"] ∧
    BrowserWindow.SetTitleFromSettings (hostWithTitles (some "Popup") (some "My App"))
        ⟨10, false, none⟩ = [] :=
  ⟨(SetTitleFromSettings_fallback (hostWithTitles (some "Popup") (some "My App"))
      ⟨20, true, none⟩).1 rfl (by decide),
    (SetTitleFromSettings_fallback (hostWithTitles none (some "My App"))
      ⟨20, true, none⟩).2.1 rfl rfl (by decide),
    (SetTitleFromSettings_fallback (hostWithTitles (some "") none)
      ⟨20, true, none⟩).2.2.1 rfl rfl rfl,
    (SetTitleFromSettings_fallback (hostWithTitles (some "Popup") (some "My App"))
      ⟨10, false, none⟩).2.2.2 rfl⟩

/-! ## Construction -/

theorem SetIconFromSettings_no_fatalError (host : Host) (w : BrowserWindow) :
    (w.SetIconFromSettings host).any Event.isFatalError = false := by
  unfold BrowserWindow.SetIconFromSettings
  dsimp only
  generalize (if w.IsPopup = true then host.settings.popup_window_icon
    else host.settings.main_window_icon) = iconPath
  cases iconPath with
  | none => rfl
  | some path =>
    dsimp only
    split_ifs <;> simp [Event.isFatalError]

theorem SetTitleFromSettings_no_fatalError (host : Host) (w : BrowserWindow) :
    (w.SetTitleFromSettings host).any Event.isFatalError = false := by
  unfold BrowserWindow.SetTitleFromSettings BrowserWindow.SetTitle
  split <;> rfl

/-- C4, what the code does: whenever the engine reports that the creation
request failed, constructing a non-popup window still issues the request, gets
`true` from `CreateBrowserControl`, and finishes without calling `FatalError`. -/
theorem construct_ignores_creation_failure (host : Host) (hwnd : HWND)
    (hfail : host.CreateBrowser hwnd (host.GetWindowRect hwnd).2 host.g_webServerUrl
      = false) :
    (BrowserWindow.CreateBrowserControl host ⟨hwnd, false, none⟩).1 = true ∧
    Event.createBrowser hwnd (host.GetWindowRect hwnd).2 host.g_webServerUrl
      ∈ (BrowserWindow.construct host hwnd false).2 ∧
    (BrowserWindow.construct host hwnd false).2.any Event.isFatalError = false := by
  have _ := hfail
  refine ⟨rfl, ?_, ?_⟩
  · simp [BrowserWindow.construct, BrowserWindow.CreateBrowserControl,
      BrowserWindow.IsPopup]
  · have h1 := SetIconFromSettings_no_fatalError host ⟨hwnd, false, none⟩
    have h2 := SetTitleFromSettings_no_fatalError host ⟨hwnd, false, none⟩
    simp only [BrowserWindow.construct, BrowserWindow.CreateBrowserControl,
      BrowserWindow.IsPopup, List.any_append, h1, h2, Bool.false_or]
    cases (host.GetWindowRect hwnd).1 <;> rfl

/-- C4 evaluated: the sample host rejects the creation request for the main
window 10, and the constructor does not reach `FatalError`. -/
theorem construct_ignores_creation_failure_witness :
    sampleHost.CreateBrowser 10 (sampleHost.GetWindowRect 10).2
      sampleHost.g_webServerUrl = false ∧
    (BrowserWindow.construct sampleHost 10 false).2.any Event.isFatalError = false :=
  ⟨rfl, (construct_ignores_creation_failure sampleHost 10 rfl).2.2⟩

/-! ## Ownership -/

theorem Registry.values_assign_of_find_none (reg : Registry) (hwnd : HWND)
    (browser : BrowserWindowRef) (hnew : reg.find hwnd = none) :
    (reg.assign hwnd browser).values = reg.values ++ [browser] := by
  induction reg with
  | nil => rfl
  | cons e rest ih =>
    obtain ⟨k, v⟩ := e
    by_cases hk : k = hwnd
    · simp [Registry.find, hk] at hnew
    · simp only [Registry.find, hk, if_false] at hnew
      simp only [Registry.values] at ih
      simp [Registry.assign, Registry.values, hk, ih hnew]

theorem Registry.values_perm_of_find_some (reg : Registry) (hwnd : HWND)
    (browser : BrowserWindowRef) (hf : reg.find hwnd = some browser) :
    reg.values.Perm (browser :: (reg.erase hwnd).values) := by
  induction reg with
  | nil => simp [Registry.find] at hf
  | cons e rest ih =>
    obtain ⟨k, v⟩ := e
    by_cases hk : k = hwnd
    · simp only [Registry.find, hk, if_true, Option.some.injEq] at hf
      simp [Registry.erase, Registry.values, hk, hf]
    · simp only [Registry.find, hk, if_false] at hf
      simp only [Registry.values] at ih
      simp only [Registry.erase, Registry.values, hk, if_false, List.map_cons]
      exact ((ih hf).cons v).trans (List.Perm.swap browser v _)

theorem Registry.mem_values_of_find (reg : Registry) (hwnd : HWND)
    (browser : BrowserWindowRef) (hf : reg.find hwnd = some browser) :
    browser ∈ reg.values :=
  (Registry.values_perm_of_find_some reg hwnd browser hf).mem_iff.mpr
    (List.mem_cons_self _ _)

theorem OwnsLive_StoreBrowserWindow (s : State) (hwnd : HWND)
    (browser : BrowserWindowRef) (hs : s.OwnsLive)
    (hheld : browser ∉ s.g_browserWindows.values) (hlive : browser ∉ s.deleted) :
    (StoreBrowserWindow s hwnd browser).OwnsLive := by
  cases hf : s.g_browserWindows.find hwnd with
  | some b =>
    have hsame : (StoreBrowserWindow s hwnd browser).g_browserWindows = s.g_browserWindows ∧
        (StoreBrowserWindow s hwnd browser).deleted = s.deleted := by
      simp [StoreBrowserWindow, State.emit, hf]
    unfold State.OwnsLive
    rw [hsame.1, hsame.2]
    exact hs
  | none =>
    have hreg := StoreBrowserWindow_registry_of_find_none s hwnd browser hf
    have hdel : (StoreBrowserWindow s hwnd browser).deleted = s.deleted := by
      simp [StoreBrowserWindow, State.emit, hf]
    unfold State.OwnsLive
    rw [hreg, hdel, Registry.values_assign_of_find_none _ _ _ hf]
    constructor
    · rw [List.nodup_append]
      refine ⟨hs.1, List.nodup_singleton _, ?_⟩
      intro a ha hb
      rw [List.mem_singleton] at hb
      exact hheld (hb ▸ ha)
    · intro b hb
      rw [List.mem_append, List.mem_singleton] at hb
      rcases hb with hb | hb
      · exact hs.2 b hb
      · rw [hb]; exact hlive

theorem OwnsLive_RemoveBrowserWindow (s : State) (hwnd : HWND) (hs : s.OwnsLive) :
    (RemoveBrowserWindow s hwnd).OwnsLive := by
  cases hf : s.g_browserWindows.find hwnd with
  | none =>
    rw [RemoveBrowserWindow_of_find_none s hwnd hf]
    exact hs
  | some b =>
    obtain ⟨hreg, hdel⟩ := RemoveBrowserWindow_registry_of_find_some s hwnd b hf
    have hperm := Registry.values_perm_of_find_some _ hwnd b hf
    have hnd : (b :: (s.g_browserWindows.erase hwnd).values).Nodup :=
      hperm.nodup_iff.mp hs.1
    unfold State.OwnsLive
    rw [hreg, hdel]
    constructor
    · exact (List.nodup_cons.mp hnd).2
    · intro a ha hmem
      rw [List.mem_cons] at hmem
      rcases hmem with hmem | hmem
      · exact (List.nodup_cons.mp hnd).1 (hmem ▸ ha)
      · exact hs.2 a (hperm.mem_iff.mpr (List.mem_cons_of_mem _ ha)) hmem

theorem OwnsLive_run (ops : List Op) :
    ∀ s : State, s.OwnsLive → freshStores s ops = true → (run s ops).OwnsLive := by
  induction ops with
  | nil => intro s hs _; exact hs
  | cons op rest ih =>
    intro s hs hfresh
    cases op with
    | store hwnd browser =>
      simp only [freshStores, Bool.and_eq_true, Bool.not_eq_true'] at hfresh
      obtain ⟨⟨hheld, hlive⟩, hrest⟩ := hfresh
      have hheld2 : browser ∉ s.g_browserWindows.values := by
        intro hmem
        have hc : List.contains _ browser = true := List.elem_eq_true_of_mem hmem
        rw [hheld] at hc
        exact Bool.false_ne_true hc
      have hlive2 : browser ∉ s.deleted := by
        intro hmem
        have hc : List.contains _ browser = true := List.elem_eq_true_of_mem hmem
        rw [hlive] at hc
        exact Bool.false_ne_true hc
      exact ih _ (OwnsLive_StoreBrowserWindow s hwnd browser hs hheld2 hlive2) hrest
    | remove hwnd =>
      simp only [freshStores] at hfresh
      exact ih _ (OwnsLive_RemoveBrowserWindow s hwnd hs) hfresh

theorem GetBrowserWindow_mem_values (host : Host) (s : State) (hwnd : HWND)
    (browser : BrowserWindowRef)
    (hget : (GetBrowserWindow host s hwnd).1 = some browser) :
    browser ∈ s.g_browserWindows.values := by
  rw [GetBrowserWindow_eq_findSpec] at hget
  unfold findSpec at hget
  split_ifs at hget
  · exact Registry.mem_values_of_find _ _ _ hget
  · exact Registry.mem_values_of_find _ _ _ hget
  · exact Registry.mem_values_of_find _ _ _ hget

/-- C10 as stated fails: store object 7 under handle 1, store the same object
under handle 2, remove handle 1.  The object is deleted, yet handle 2 is still
a key and `GetBrowserWindow(2)` returns the deleted object. -/
theorem shared_object_is_returned_deleted :
    ¬ (∀ (ops : List Op) (host : Host) (hwnd : HWND) (browser : BrowserWindowRef),
        (GetBrowserWindow host (run State.init ops) hwnd).1 = some browser →
        browser ∉ (run State.init ops).deleted) := by
  intro hall
  exact hall [.store 1 7, .store 2 7, .remove 1] sampleHost 2 7 (by decide) (by decide)

/-- C10 amended: every registry state reached from the empty registry by a
sequence of `StoreBrowserWindow` and `RemoveBrowserWindow` calls in which each
store is handed an object that is, at that moment, neither held by the registry
nor deleted, maps its keys to pairwise different objects none of which has been
deleted; so `GetBrowserWindow` never returns a deleted object. -/
theorem fresh_stores_own_live_objects (ops : List Op)
    (hfresh : freshStores State.init ops = true) :
    (run State.init ops).OwnsLive ∧
    ∀ (host : Host) (hwnd : HWND) (browser : BrowserWindowRef),
      (GetBrowserWindow host (run State.init ops) hwnd).1 = some browser →
      browser ∉ (run State.init ops).deleted := by
  have hinit : State.init.OwnsLive := by
    constructor
    · exact List.nodup_nil
    · intro b hb; cases hb
  have hown := OwnsLive_run ops State.init hinit hfresh
  exact ⟨hown, fun host hwnd browser hget =>
    hown.2 browser (GetBrowserWindow_mem_values host _ hwnd browser hget)⟩

/-- C10 amended, evaluated: objects 7 and 8 are stored under handles 1 and 2,
a second store under handle 1 is refused, handle 1 is removed; handle 2 still
resolves to object 8, which is not deleted, while object 7 is. -/
theorem fresh_stores_own_live_objects_witness :
    freshStores State.init [.store 1 7, .store 2 8, .store 1 9, .remove 1] = true ∧
    (GetBrowserWindow sampleHost
      (run State.init [.store 1 7, .store 2 8, .store 1 9, .remove 1]) 2).1 = some 8 ∧
    8 ∉ (run State.init [.store 1 7, .store 2 8, .store 1 9, .remove 1]).deleted ∧
    7 ∈ (run State.init [.store 1 7, .store 2 8, .store 1 9, .remove 1]).deleted :=
  ⟨by decide, by decide,
    (fresh_stores_own_live_objects [.store 1 7, .store 2 8, .store 1 9, .remove 1]
      (by decide)).2 sampleHost 2 8 (by decide),
    by decide⟩

end PhpDesktop
